import Mathlib

/-!
Verification of the sandboxed expression-evaluator core of the
`mcp-server-daily` repository (`src/utility_dispatcher.py`, functions
`scientific_calculator` and `_eval`, tables `_ALLOWED_NAMES` and
`_ALLOWED_OPERATORS`, together with the MCP entry point `calculate`
in `src/mcp-calculator/mcp_calculator.py`).

The Python code parses an input string with CPython's `ast.parse(mode="eval")`
and walks the resulting tree with `_eval`, dispatching operators through
`_ALLOWED_OPERATORS` and names through `_ALLOWED_NAMES` (every public member
of the `math` module plus `pi` and `e`).  The embedding below mirrors that
structure:

* `PyVal` models the Python values the evaluator can produce (ints, floats,
  strings, bools, `None`, and function objects drawn from the `math` module).
* `PyFloat` models CPython floats: finite values are carried as exact
  rationals (every numeric literal and constant appearing in the verified
  claims is exactly representable in binary64, and on those inputs the host
  double operations are exact, so no rounding model is needed); `inf`,
  `-inf` and `nan` are explicit constructors with CPython's special-value
  semantics, including `ZeroDivisionError` on division by zero.
* Host routines that are genuinely external to the repository (the libm
  functions stored in `_ALLOWED_NAMES`, and `float.__pow__` on the inexact
  cases) are abstracted into a `HostIntp` interpretation record; theorems
  that depend on a host fact state it as an explicit hypothesis.
-/

/-- The Python exception classes that can escape the calculator's internals:
`ValueError(msg)` (raised explicitly by `_eval` and `scientific_calculator`),
`TypeError` (bad operand types, non-callable object, wrong argument count of a
host routine), `ZeroDivisionError` (CPython division/modulo by zero), and the
`SyntaxError` raised by `ast.parse` on malformed input (constructor
`parseErr`). -/
inductive PyExc where
  | valueError (msg : String)
  | typeError
  | zeroDivisionError
  | parseErr
  deriving DecidableEq

/-- A CPython `float`: a finite binary64 value (carried as the exact rational
it denotes), `inf`, `-inf`, or `nan`.  Signed zero is not distinguished (no
verified claim observes it). -/
inductive PyFloat where
  | finite (q : ℚ)
  | pinf
  | ninf
  | nan
  deriving DecidableEq

namespace PyFloat

/-- Unary minus on a CPython float. -/
def neg : PyFloat → PyFloat
  | finite q => finite (-q)
  | pinf => ninf
  | ninf => pinf
  | nan => nan

/-- CPython float addition (`inf + (-inf) = nan`, `nan` absorbs). -/
def add : PyFloat → PyFloat → PyFloat
  | nan, _ => nan
  | _, nan => nan
  | pinf, ninf => nan
  | ninf, pinf => nan
  | pinf, _ => pinf
  | _, pinf => pinf
  | ninf, _ => ninf
  | _, ninf => ninf
  | finite a, finite b => finite (a + b)

/-- CPython float subtraction, `a - b = a + (-b)`. -/
def sub (a b : PyFloat) : PyFloat := add a (neg b)

/-- CPython float multiplication (`inf * 0 = nan`, signs multiply). -/
def mul : PyFloat → PyFloat → PyFloat
  | nan, _ => nan
  | _, nan => nan
  | finite a, finite b => finite (a * b)
  | pinf, pinf => pinf
  | pinf, ninf => ninf
  | ninf, pinf => ninf
  | ninf, ninf => pinf
  | pinf, finite b => if b = 0 then nan else if 0 < b then pinf else ninf
  | ninf, finite b => if b = 0 then nan else if 0 < b then ninf else pinf
  | finite a, pinf => if a = 0 then nan else if 0 < a then pinf else ninf
  | finite a, ninf => if a = 0 then nan else if 0 < a then ninf else pinf

/-- CPython float true division.  CPython checks the divisor first: any
division by `0.0` raises `ZeroDivisionError` (floats do NOT follow IEEE-754
here); otherwise `nan` absorbs, `finite / inf = 0`, `inf / inf = nan`,
`inf / finite` is a signed infinity. -/
def div : PyFloat → PyFloat → Except PyExc PyFloat
  | a, finite b =>
      if b = 0 then .error .zeroDivisionError
      else
        match a with
        | finite x => .ok (finite (x / b))
        | nan => .ok nan
        | pinf => .ok (if 0 < b then pinf else ninf)
        | ninf => .ok (if 0 < b then ninf else pinf)
  | nan, _ => .ok nan
  | _, nan => .ok nan
  | finite _, pinf => .ok (finite 0)
  | finite _, ninf => .ok (finite 0)
  | _, pinf => .ok nan
  | _, ninf => .ok nan

/-- CPython float modulo (`%`): divisor `0.0` raises `ZeroDivisionError`;
`nan` absorbs; `inf % x = nan`; a finite value mod `±inf` is itself when the
signs agree and the infinity otherwise; on finite operands the result follows
floor division, `a - b * ⌊a / b⌋` (the sign follows the divisor, as in
CPython). -/
def mod : PyFloat → PyFloat → Except PyExc PyFloat
  | a, finite b =>
      if b = 0 then .error .zeroDivisionError
      else
        match a with
        | finite x => .ok (finite (x - b * (Rat.floor (x / b) : ℚ)))
        | nan => .ok nan
        | pinf => .ok nan
        | ninf => .ok nan
  | nan, _ => .ok nan
  | _, nan => .ok nan
  | finite a, pinf => .ok (if 0 ≤ a then finite a else pinf)
  | finite a, ninf => .ok (if a ≤ 0 then finite a else ninf)
  | _, pinf => .ok nan
  | _, ninf => .ok nan

end PyFloat

/-- A Python value as it can flow through `_eval`: an `int`, a `float`, a
`str`, a `bool`, `None`, or one of the function objects stored in
`_ALLOWED_NAMES` (identified by its name in the `math` module).  The Python
code is dynamically typed and its `float` return annotation is not enforced,
so non-float values really do occur. -/
inductive PyVal where
  | intV (n : ℤ)
  | floatV (f : PyFloat)
  | strV (s : String)
  | boolV (b : Bool)
  | noneV
  | funcObj (name : String)
  deriving DecidableEq

namespace PyVal

/-- Python treats `bool` as a subtype of `int` in arithmetic: the integer a
value contributes when an integer operation applies to it. -/
def asInt? : PyVal → Option ℤ
  | intV n => some n
  | boolV b => some (if b then 1 else 0)
  | _ => none

/-- The CPython float a value converts to in mixed arithmetic (`int` and
`bool` promote to finite floats). -/
def asFloat? : PyVal → Option PyFloat
  | intV n => some (.finite (n : ℚ))
  | floatV f => some f
  | boolV b => some (.finite (if b then 1 else 0))
  | _ => none

end PyVal


/-- Python string repetition `s * n` (empty for `n ≤ 0`). -/
def strRepeat (s : String) : ℤ → String
  | .ofNat n => (List.replicate n s).foldl (· ++ ·) ""
  | .negSucc _ => ""

/-- Python binary `+` (`operator.add`): `int`-like operands add as integers,
numeric operands add as floats, two strings concatenate; anything else is a
`TypeError`. -/
def pyAdd (v w : PyVal) : Except PyExc PyVal :=
  match v.asInt?, w.asInt? with
  | some a, some b => .ok (.intV (a + b))
  | _, _ =>
    match v.asFloat?, w.asFloat? with
    | some a, some b => .ok (.floatV (a.add b))
    | _, _ =>
      match v, w with
      | .strV a, .strV b => .ok (.strV (a ++ b))
      | _, _ => .error .typeError

/-- Python binary `-` (`operator.sub`). -/
def pySub (v w : PyVal) : Except PyExc PyVal :=
  match v.asInt?, w.asInt? with
  | some a, some b => .ok (.intV (a - b))
  | _, _ =>
    match v.asFloat?, w.asFloat? with
    | some a, some b => .ok (.floatV (a.sub b))
    | _, _ => .error .typeError

/-- Python binary `*` (`operator.mul`), including string repetition. -/
def pyMul (v w : PyVal) : Except PyExc PyVal :=
  match v.asInt?, w.asInt? with
  | some a, some b => .ok (.intV (a * b))
  | _, _ =>
    match v.asFloat?, w.asFloat? with
    | some a, some b => .ok (.floatV (a.mul b))
    | _, _ =>
      match v, w with
      | .strV s, _ =>
        match w.asInt? with
        | some n => .ok (.strV (strRepeat s n))
        | none => .error .typeError
      | _, .strV s =>
        match v.asInt? with
        | some n => .ok (.strV (strRepeat s n))
        | none => .error .typeError
      | _, _ => .error .typeError

/-- Python binary `/` (`operator.truediv`): true division always produces a
float; `int / int` promotes both sides.  A zero divisor raises
`ZeroDivisionError` (CPython never yields `inf` here). -/
def pyDiv (v w : PyVal) : Except PyExc PyVal :=
  match v.asFloat?, w.asFloat? with
  | some a, some b => (PyFloat.div a b).map .floatV
  | _, _ => .error .typeError

/-- Python binary `%` (`operator.mod`) on the numeric operand combinations:
`int % int` follows floor division (`Int.fmod`: the sign of the result
follows the divisor, with `ZeroDivisionError` on a zero divisor); any float
operand promotes to float modulo.  `%`-formatting of strings is outside the
model (no verified claim involves it); other operand types raise
`TypeError`. -/
def pyMod (v w : PyVal) : Except PyExc PyVal :=
  match v.asInt?, w.asInt? with
  | some a, some b =>
      if b = 0 then .error .zeroDivisionError else .ok (.intV (Int.fmod a b))
  | _, _ =>
    match v.asFloat?, w.asFloat? with
    | some a, some b => (PyFloat.mod a b).map .floatV
    | _, _ => .error .typeError

/-- The interpretation of the host routines the Python module reaches but
which live outside the repository: `apply name args` is the call
`_ALLOWED_NAMES[name](*args)` of a function object of the `math` module
(CPython's libm wrappers), and `powInexact` is `operator.pow` on the operand
combinations whose binary64 result is not exactly determined by the operands
(a non-integral or special-value exponent, or a special-value base).
Theorems state the host facts they rely on as explicit hypotheses on this
record. -/
structure HostIntp where
  apply : String → List PyVal → Except PyExc PyVal
  powInexact : PyVal → PyVal → Except PyExc PyVal

/-- Python binary `**` (`operator.pow`) on the exactly-determined cases:
`int ** int` is exact integer power for a non-negative exponent and an exact
rational for a negative exponent (with `0 ** negative` raising
`ZeroDivisionError`); a finite float base with an integer-valued exponent is
the exact rational power (those claims' operands are exactly representable,
so the binary64 operation is exact on them).  Every other combination —
special values, fractional exponents — defers to the host interpretation;
non-numeric operands raise `TypeError`. -/
def pyPow (intp : HostIntp) (v w : PyVal) : Except PyExc PyVal :=
  match v.asInt?, w.asInt? with
  | some a, some b =>
      if 0 ≤ b then .ok (.intV (a ^ b.toNat))
      else if a = 0 then .error .zeroDivisionError
      else .ok (.floatV (.finite ((a : ℚ) ^ b)))
  | _, _ =>
    match v.asFloat?, w.asFloat? with
    | some (.finite q), some (.finite e) =>
        if e.den = 1 then
          if q = 0 ∧ e.num < 0 then .error .zeroDivisionError
          else .ok (.floatV (.finite (q ^ e.num)))
        else intp.powInexact v w
    | some _, some _ => intp.powInexact v w
    | _, _ => .error .typeError

/-- Python unary `-` applied to a value (`-operand` in `_eval`). -/
def pyNeg : PyVal → Except PyExc PyVal
  | .intV n => .ok (.intV (-n))
  | .boolV b => .ok (.intV (-(if b then 1 else 0)))
  | .floatV f => .ok (.floatV f.neg)
  | _ => .error .typeError

/-- The unary operator node kinds of Python's `ast` module.  `_eval` handles
only `UAdd` and `USub`; a `UnaryOp` with `Not` or `Invert` fails its
`isinstance` test and falls through to the final
`raise ValueError("Invalid expression.")`. -/
inductive UOp where
  | uadd
  | usub
  | notOp
  | invert
  deriving DecidableEq

/-- The binary operator node kinds of Python's `ast` module that can reach
`_eval`.  `bitXor` is what the surface character `^` parses to in Python. -/
inductive BOp where
  | add
  | sub
  | mult
  | div
  | mod
  | pow
  | bitXor
  | bitAnd
  | bitOr
  | floorDiv
  | lshift
  | rshift
  | matMult
  deriving DecidableEq

/-- Membership in `_ALLOWED_OPERATORS`
(`{ast.Add, ast.Sub, ast.Mult, ast.Div, ast.Pow, ast.Mod}`): the closed set of
operator node types `_eval` dispatches; any other operator raises
`ValueError("Unsupported operator.")`. -/
def allowedOp : BOp → Bool
  | .add => true
  | .sub => true
  | .mult => true
  | .div => true
  | .mod => true
  | .pow => true
  | _ => false

/-- Dispatch `_ALLOWED_OPERATORS[type(node.op)](left, right)`: the host operator a
permitted `BOp` dispatches to (`operator.add/sub/mul/truediv/pow/mod`).
Only `pow` consults the host interpretation (for its inexact cases). -/
def applyBinOp (intp : HostIntp) : BOp → PyVal → PyVal → Except PyExc PyVal
  | .add => pyAdd
  | .sub => pySub
  | .mult => pyMul
  | .div => pyDiv
  | .mod => pyMod
  | .pow => pyPow intp
  | _ => fun _ _ => .error .typeError

/-- The exact rational denoted by the binary64 constant `math.pi`
(`3.141592653589793…` = `884279719003555 / 2^48`). -/
def piQ : ℚ := (884279719003555 : ℚ) / 281474976710656

/-- The exact rational denoted by the binary64 constant `math.e`
(`2.718281828459045…` = `6121026514868073 / 2^51`). -/
def eQ : ℚ := (6121026514868073 : ℚ) / 2251799813685248

/-- The exact rational denoted by the binary64 constant `math.tau`
(`2 * math.pi`, exactly representable). -/
def tauQ : ℚ := (884279719003555 : ℚ) / 140737488355328

/-- The callable public members of CPython 3.11's `math` module, in
`dir(math)` order (the non-callable members `e`, `inf`, `nan`, `pi`, `tau`
are listed separately in `_ALLOWED_NAMES` with their float values). -/
def mathFunctionNames : List String :=
  ["acos", "acosh", "asin", "asinh", "atan", "atan2", "atanh", "cbrt",
   "ceil", "comb", "copysign", "cos", "cosh", "degrees", "dist", "erf",
   "erfc", "exp", "exp2", "expm1", "fabs", "factorial", "floor", "fmod",
   "frexp", "fsum", "gamma", "gcd", "hypot", "isclose", "isfinite",
   "isinf", "isnan", "isqrt", "lcm", "ldexp", "lgamma", "log", "log10",
   "log1p", "log2", "modf", "nextafter", "perm", "pow", "prod", "radians",
   "remainder", "sin", "sinh", "sqrt", "tan", "tanh", "trunc", "ulp"]

/-- Model of `_ALLOWED_NAMES = {k: getattr(math, k) for k in dir(math) if not
k.startswith("_")}` followed by `update({"pi": math.pi, "e": math.e})` (a
no-op: both keys are already present).  Function members map to their
function objects; the float members map to their binary64 values. -/
def ALLOWED_NAMES : List (String × PyVal) :=
  mathFunctionNames.map (fun n => (n, .funcObj n)) ++
    [("e", .floatV (.finite eQ)), ("inf", .floatV .pinf),
     ("nan", .floatV .nan), ("pi", .floatV (.finite piQ)),
     ("tau", .floatV (.finite tauQ))]

/-- Membership test `node.id in _ALLOWED_NAMES` and lookup `_ALLOWED_NAMES[node.id]`. -/
def allowLookup (id : String) : Option PyVal :=
  ALLOWED_NAMES.lookup id

/-- Calling a value drawn from `_ALLOWED_NAMES` (`_ALLOWED_NAMES[f](*args)`):
a function object dispatches to the host routine; calling a float (e.g.
`pi(3)`) raises `TypeError: 'float' object is not callable`. -/
def callValue (intp : HostIntp) : PyVal → List PyVal → Except PyExc PyVal
  | .funcObj n, args => intp.apply n args
  | _, _ => .error .typeError

mutual
/-- The fragment of Python's `ast` expression nodes that `_eval` branches on:
`Constant` (which in Python ≥ 3.8 carries strings, bools and `None` as well
as numbers), `Name`, `UnaryOp`, `BinOp` and `Call` (whose callee is itself an
arbitrary expression — `_eval` checks `isinstance(node.func, ast.Name)` at
evaluation time).  Every other node kind (`Subscript`, `Tuple`, `Lambda`,
`Attribute`, `Compare`, …) is collapsed into `other`, which `_eval` treats
uniformly: none of its `isinstance` tests match and the final
`raise ValueError("Invalid expression.")` fires. -/
inductive PyAst where
  | constant (v : PyVal)
  | name (id : String)
  | unaryOp (op : UOp) (operand : PyAst)
  | binOp (left : PyAst) (op : BOp) (right : PyAst)
  | call (func : PyAst) (args : PyArgs)
  | other (kind : String)

/-- The argument list of a `Call` node (a separate inductive so that the
mutual structural recursion of `pyEval`/`pyEvalArgs` is plain). -/
inductive PyArgs where
  | nil
  | cons (head : PyAst) (tail : PyArgs)
end

/-- The `List` form of an argument list. -/
def PyArgs.toList : PyArgs → List PyAst
  | .nil => []
  | .cons a rest => a :: rest.toList

/-- Argument lists from `List` (used by the parser). -/
def PyArgs.ofList : List PyAst → PyArgs
  | [] => .nil
  | a :: rest => .cons a (PyArgs.ofList rest)

/-- The `Call` guard of `_eval`: the callee must be a plain `ast.Name` whose
id is a key of `_ALLOWED_NAMES`; any other callee shape, and any name outside
the table, is rejected before anything is called. -/
def callTargetAllowed : PyAst → Bool
  | .name id => (allowLookup id).isSome
  | _ => false

mutual
/-- Function `_eval` of `src/utility_dispatcher.py`, line for line:

* `ast.Constant` → `node.value`, whatever Python value the constant carries
  (the `ast.Num` branch of the source is dead code on Python ≥ 3.8: `parse`
  only produces `Constant`);
* `ast.UnaryOp` with `UAdd`/`USub` → evaluate the operand, return it
  unchanged for `UAdd` or negated for `USub`;
* `ast.BinOp` → reject an operator type outside `_ALLOWED_OPERATORS` with
  `ValueError("Unsupported operator.")`, else evaluate left then right and
  dispatch;
* `ast.Call` → reject unless the callee is an `ast.Name` whose id is a key
  of `_ALLOWED_NAMES` (`ValueError("Function not allowed.")`), else evaluate
  the arguments left to right and call the stored value;
* `ast.Name` with an allow-listed id → the stored value (for a function
  member this is the function object itself);
* anything else → `ValueError("Invalid expression.")`. -/
def pyEval (intp : HostIntp) : PyAst → Except PyExc PyVal
  | .constant v => .ok v
  | .unaryOp op operand =>
      match op with
      | .uadd => pyEval intp operand
      | .usub => do
          let v ← pyEval intp operand
          pyNeg v
      | _ => .error (.valueError "Invalid expression.")
  | .binOp l op r =>
      if allowedOp op then do
        let lv ← pyEval intp l
        let rv ← pyEval intp r
        applyBinOp intp op lv rv
      else .error (.valueError "Unsupported operator.")
  | .call f args =>
      match f with
      | .name id =>
          match allowLookup id with
          | some v => do
              let vs ← pyEvalArgs intp args
              callValue intp v vs
          | none => .error (.valueError "Function not allowed.")
      | _ => .error (.valueError "Function not allowed.")
  | .name id =>
      match allowLookup id with
      | some v => .ok v
      | none => .error (.valueError "Invalid expression.")
  | .other _ => .error (.valueError "Invalid expression.")

/-- Comprehension `[_eval(arg) for arg in node.args]`: left-to-right evaluation of a call's
arguments, stopping at the first exception. -/
def pyEvalArgs (intp : HostIntp) : PyArgs → Except PyExc (List PyVal)
  | .nil => .ok []
  | .cons a rest => do
      let v ← pyEval intp a
      let vs ← pyEvalArgs intp rest
      .ok (v :: vs)
end

/-- The tokens of the expression fragment of CPython's lexer that the
calculator's grammar can reach: numeric literals, identifiers, string
literals, the operator characters `+ - * / % ^ **`, parentheses and the
comma. -/
inductive Tok where
  | num (v : PyVal)
  | ident (s : String)
  | strTok (s : String)
  | plus
  | minus
  | star
  | slash
  | percent
  | caret
  | dstar
  | lparen
  | rparen
  | comma
  deriving DecidableEq

/-- The leading run of decimal digits of a character list, and the rest. -/
def readDigits : List Char → List Char × List Char
  | c :: cs =>
      if c.isDigit then
        let (ds, rest) := readDigits cs
        (c :: ds, rest)
      else ([], c :: cs)
  | [] => ([], [])

/-- The natural number a run of decimal digits denotes. -/
def digitsToNat (ds : List Char) : ℕ :=
  ds.foldl (fun a c => 10 * a + (c.toNat - 48)) 0

/-- The characters up to a closing quote `q`, and the rest (after the quote);
`none` when the literal is unterminated.  Escape sequences are outside the
model (no verified claim uses one). -/
def readStr (q : Char) : List Char → Option (List Char × List Char)
  | [] => none
  | c :: cs =>
      if c = q then some ([], cs)
      else
        match readStr q cs with
        | some (body, rest) => some (c :: body, rest)
        | none => none

/-- A character that can start an identifier (Python allows underscores:
`__import__` is a single NAME token). -/
def isIdentStart (c : Char) : Bool := c.isAlpha || c = '_'

/-- A character that can continue an identifier. -/
def isIdentCont (c : Char) : Bool := c.isAlphanum || c = '_'

/-- The leading identifier characters, and the rest. -/
def readIdent : List Char → List Char × List Char
  | c :: cs =>
      if isIdentCont c then
        let (xs, rest) := readIdent cs
        (c :: xs, rest)
      else ([], c :: cs)
  | [] => ([], [])

/-- The numeric literal starting at a character list whose head is a digit or
a decimal point: an integer literal yields an `int` constant; a literal with
a decimal point (including the `2.` and `.5` forms Python accepts) yields the
`float` it denotes exactly.  Returns the constant and the rest. -/
def readNumber (cs : List Char) : Option (PyVal × List Char) :=
  let (ds, rest) := readDigits cs
  match rest with
  | '.' :: rest2 =>
      let (fs, rest3) := readDigits rest2
      if ds.isEmpty ∧ fs.isEmpty then none
      else
        some (.floatV (.finite ((digitsToNat ds : ℚ) +
          (digitsToNat fs : ℚ) / (10 : ℚ) ^ fs.length)), rest3)
  | _ =>
      if ds.isEmpty then none
      else some (.intV (digitsToNat ds : ℤ), rest)

/-- The lexer for the modelled fragment: whitespace separates tokens, `**` is
one token (checked before `*`), any character outside the fragment is a
lexical `SyntaxError`.  Fuel-driven; the initial fuel of `pyParse` always
suffices because every step consumes at least one character. -/
def tokenize : ℕ → List Char → Except PyExc (List Tok)
  | 0, _ => .error .parseErr
  | _, [] => .ok []
  | fuel + 1, c :: cs =>
      if c = ' ' ∨ c = '\t' ∨ c = '\n' ∨ c = '\r' then tokenize fuel cs
      else if c.isDigit ∨ c = '.' then
        match readNumber (c :: cs) with
        | some (v, rest) => do
            let ts ← tokenize fuel rest
            .ok (.num v :: ts)
        | none => .error .parseErr
      else if isIdentStart c then
        let (xs, rest) := readIdent (c :: cs)
        do
          let ts ← tokenize fuel rest
          .ok (.ident (String.mk xs) :: ts)
      else if c = '\x27' ∨ c = '"' then
        match readStr c cs with
        | some (body, rest) => do
            let ts ← tokenize fuel rest
            .ok (.strTok (String.mk body) :: ts)
        | none => .error .parseErr
      else if c = '*' then
        match cs with
        | '*' :: rest => do
            let ts ← tokenize fuel rest
            .ok (.dstar :: ts)
        | _ => do
            let ts ← tokenize fuel cs
            .ok (.star :: ts)
      else
        let tok? : Option Tok :=
          if c = '+' then some .plus
          else if c = '-' then some .minus
          else if c = '/' then some .slash
          else if c = '%' then some .percent
          else if c = '^' then some .caret
          else if c = '(' then some .lparen
          else if c = ')' then some .rparen
          else if c = ',' then some .comma
          else none
        match tok? with
        | some t => do
            let ts ← tokenize fuel cs
            .ok (t :: ts)
        | none => .error .parseErr

mutual
/-- Python's expression grammar restricted to the lexed fragment, lowest
precedence first.  With only `^` present among the bitwise operators,
`expression := xor_expr := sum (\x27^\x27 sum)*`, left-associative — in
Python `^` is the XOR operator and binds LOOSER than `+`/`-`, and `2^3^2`
parses as `BinOp(BinOp(2, BitXor, 3), BitXor, 2)`. -/
def parseExprT : ℕ → List Tok → Except PyExc (PyAst × List Tok)
  | 0, _ => .error .parseErr
  | fuel + 1, ts => do
      let (a, ts1) ← parseSum fuel ts
      parseXorRest fuel a ts1

/-- The `(\x27^\x27 sum)*` tail of `xor_expr`. -/
def parseXorRest : ℕ → PyAst → List Tok → Except PyExc (PyAst × List Tok)
  | 0, _, _ => .error .parseErr
  | fuel + 1, a, ts =>
      match ts with
      | .caret :: rest => do
          let (b, ts1) ← parseSum fuel rest
          parseXorRest fuel (.binOp a .bitXor b) ts1
      | _ => .ok (a, ts)

/-- Rule `sum := term ((\x27+\x27 | \x27-\x27) term)*`, left-associative. -/
def parseSum : ℕ → List Tok → Except PyExc (PyAst × List Tok)
  | 0, _ => .error .parseErr
  | fuel + 1, ts => do
      let (a, ts1) ← parseTerm fuel ts
      parseSumRest fuel a ts1

/-- The additive tail of `sum`. -/
def parseSumRest : ℕ → PyAst → List Tok → Except PyExc (PyAst × List Tok)
  | 0, _, _ => .error .parseErr
  | fuel + 1, a, ts =>
      match ts with
      | .plus :: rest => do
          let (b, ts1) ← parseTerm fuel rest
          parseSumRest fuel (.binOp a .add b) ts1
      | .minus :: rest => do
          let (b, ts1) ← parseTerm fuel rest
          parseSumRest fuel (.binOp a .sub b) ts1
      | _ => .ok (a, ts)

/-- Rule `term := factor ((\x27*\x27 | \x27/\x27 | \x27%\x27) factor)*`,
left-associative. -/
def parseTerm : ℕ → List Tok → Except PyExc (PyAst × List Tok)
  | 0, _ => .error .parseErr
  | fuel + 1, ts => do
      let (a, ts1) ← parseFactor fuel ts
      parseTermRest fuel a ts1

/-- The multiplicative tail of `term`. -/
def parseTermRest : ℕ → PyAst → List Tok → Except PyExc (PyAst × List Tok)
  | 0, _, _ => .error .parseErr
  | fuel + 1, a, ts =>
      match ts with
      | .star :: rest => do
          let (b, ts1) ← parseFactor fuel rest
          parseTermRest fuel (.binOp a .mult b) ts1
      | .slash :: rest => do
          let (b, ts1) ← parseFactor fuel rest
          parseTermRest fuel (.binOp a .div b) ts1
      | .percent :: rest => do
          let (b, ts1) ← parseFactor fuel rest
          parseTermRest fuel (.binOp a .mod b) ts1
      | _ => .ok (a, ts)

/-- Rule `factor := (\x27+\x27 | \x27-\x27) factor | power`: unary sign, binding
tighter than the binary additive/multiplicative operators but looser than
`**` on its operand (`-2**2` parses as `-(2**2)`). -/
def parseFactor : ℕ → List Tok → Except PyExc (PyAst × List Tok)
  | 0, _ => .error .parseErr
  | fuel + 1, ts =>
      match ts with
      | .plus :: rest => do
          let (a, ts1) ← parseFactor fuel rest
          .ok (.unaryOp .uadd a, ts1)
      | .minus :: rest => do
          let (a, ts1) ← parseFactor fuel rest
          .ok (.unaryOp .usub a, ts1)
      | _ => parsePower fuel ts

/-- Rule `power := primary [\x27**\x27 factor]`: `**` is right-associative
(`2**3**2` parses as `2**(3**2)`) and its right operand admits a unary
sign. -/
def parsePower : ℕ → List Tok → Except PyExc (PyAst × List Tok)
  | 0, _ => .error .parseErr
  | fuel + 1, ts => do
      let (a, ts1) ← parsePrimary fuel ts
      match ts1 with
      | .dstar :: rest => do
          let (b, ts2) ← parseFactor fuel rest
          .ok (.binOp a .pow b, ts2)
      | _ => .ok (a, ts1)

/-- Rule `primary := atom trailer*` where a trailer is a call argument list:
Python builds `Call` nodes whose callee is the preceding primary (so
`sin(2)` has callee `Name("sin")`, while `sin(2)(3)` has a `Call`
callee). -/
def parsePrimary : ℕ → List Tok → Except PyExc (PyAst × List Tok)
  | 0, _ => .error .parseErr
  | fuel + 1, ts => do
      let (a, ts1) ← parseAtom fuel ts
      parseTrailers fuel a ts1

/-- The `trailer*` loop of `primary`. -/
def parseTrailers : ℕ → PyAst → List Tok → Except PyExc (PyAst × List Tok)
  | 0, _, _ => .error .parseErr
  | fuel + 1, a, ts =>
      match ts with
      | .lparen :: .rparen :: rest => parseTrailers fuel (.call a .nil) rest
      | .lparen :: rest => do
          let (args, ts1) ← parseArgs fuel rest
          match ts1 with
          | .rparen :: rest1 =>
              parseTrailers fuel (.call a (PyArgs.ofList args)) rest1
          | _ => .error .parseErr
      | _ => .ok (a, ts)

/-- A non-empty call argument list, `expression (\x27,\x27 expression)*`. -/
def parseArgs : ℕ → List Tok → Except PyExc (List PyAst × List Tok)
  | 0, _ => .error .parseErr
  | fuel + 1, ts => do
      let (a, ts1) ← parseExprT fuel ts
      match ts1 with
      | .comma :: rest => do
          let (more, ts2) ← parseArgs fuel rest
          .ok (a :: more, ts2)
      | _ => .ok ([a], ts1)

/-- Rule `atom`: a literal (numeric, string, `True`/`False`/`None`), a bare name,
or a parenthesized expression. -/
def parseAtom : ℕ → List Tok → Except PyExc (PyAst × List Tok)
  | 0, _ => .error .parseErr
  | fuel + 1, ts =>
      match ts with
      | .num v :: rest => .ok (.constant v, rest)
      | .strTok s :: rest => .ok (.constant (.strV s), rest)
      | .ident "True" :: rest => .ok (.constant (.boolV true), rest)
      | .ident "False" :: rest => .ok (.constant (.boolV false), rest)
      | .ident "None" :: rest => .ok (.constant .noneV, rest)
      | .ident s :: rest => .ok (.name s, rest)
      | .lparen :: rest => do
          let (a, ts1) ← parseExprT fuel rest
          match ts1 with
          | .rparen :: rest1 => .ok (a, rest1)
          | _ => .error .parseErr
      | _ => .error .parseErr
end

/-- Model of `ast.parse(expression, mode="eval").body`, modelled for the lexed
fragment: tokenize, parse one expression, and require the whole input to be
consumed (trailing tokens are a `SyntaxError`, as is an empty input).  The
fuel is generous: the descent consumes a token at least every seven levels,
so `8 * tokens + 8` never runs out on an input the grammar accepts.  Python
constructs outside the fragment (subscripts, lambdas, comparisons, `//`,
exponent or complex number literals, string escapes, …) are lexical errors
here; through `scientific_calculator` they are observationally the same
collapsed `ValueError` the real code produces for them via the parser or
`_eval`'s final `raise` — except complex literals such as `2j`, which the
real `Constant` branch would pass through and no claim exercises. -/
def pyParse (s : String) : Except PyExc PyAst := do
  let toks ← tokenize (s.toList.length + 1) s.toList
  let (a, rest) ← parseExprT (8 * toks.length + 8) toks
  if rest.isEmpty then .ok a else .error .parseErr

/-- Function `scientific_calculator` of `src/utility_dispatcher.py`: parse and
evaluate, converting any exception whatsoever into
`ValueError("Invalid expression.")`.  Note the success value is whatever
`_eval` produced — the `float` annotation is not enforced. -/
def scientific_calculator (intp : HostIntp) (expression : String) :
    Except PyExc PyVal :=
  match (do
    let node ← pyParse expression
    pyEval intp node : Except PyExc PyVal) with
  | .ok v => .ok v
  | .error _ => .error (.valueError "Invalid expression.")

/-- The JSON-RPC invalid-parameters code, `mcp.types.INVALID_PARAMS`. -/
def INVALID_PARAMS : ℤ := -32602

/-- What a call of the MCP tool `calculate` produces for its caller: a value,
an `McpError` with a code and message, or an exception the tool did not
catch. -/
inductive CalcOutcome where
  | ok (v : PyVal)
  | mcpError (code : ℤ) (message : String)
  | uncaught (e : PyExc)
  deriving DecidableEq

/-- Function `calculate` of `src/mcp-calculator/mcp_calculator.py`: it forwards to
`scientific_calculator` and converts a `ValueError` into
`McpError(ErrorData(code=INVALID_PARAMS, message=str(exc)))`; any other
exception would propagate (none can: every failure of `scientific_calculator`
is that single `ValueError`). -/
def calculate (intp : HostIntp) (expression : String) : CalcOutcome :=
  match scientific_calculator intp expression with
  | .ok v => .ok v
  | .error (.valueError msg) => .mcpError INVALID_PARAMS msg
  | .error e => .uncaught e

/-- A sample interpretation of the host `math` routines, used only to obtain
the closed instances (witnesses, counterexamples) of the parametric theorems
below.  It rejects every call whose argument list is not one finite float —
in particular any two-argument call, matching the documented arity of
`math.sqrt` — and returns `1.0` for `sin` at `pi / 2`, the value CPython's
`math.sin` returns there (any faithfully rounded libm gives exactly `1.0`).
No theorem relies on any other property of it. -/
def hostRef : HostIntp where
  apply n args :=
    match args with
    | [.floatV (.finite q)] =>
        if n = "sin" ∧ q = piQ / 2 then .ok (.floatV (.finite 1))
        else .ok (.floatV (.finite 0))
    | _ => .error .typeError
  powInexact _ _ := .error .typeError

instance : DecidableEq (Except PyExc PyVal)
  | .ok x, .ok y =>
      if h : x = y then .isTrue (by rw [h])
      else .isFalse (fun hc => h (by cases hc; rfl))
  | .error x, .error y =>
      if h : x = y then .isTrue (by rw [h])
      else .isFalse (fun hc => h (by cases hc; rfl))
  | .ok _, .error _ => .isFalse (fun hc => by cases hc)
  | .error _, .ok _ => .isFalse (fun hc => by cases hc)

/-- Unfolding `scientific_calculator` under a successful parse: the result is
`_eval`'s answer, with any exception collapsed. -/
theorem scientific_calculator_parse_ok (intp : HostIntp) (s : String) (a : PyAst)
    (h : pyParse s = .ok a) :
    scientific_calculator intp s =
      match pyEval intp a with
      | .ok v => .ok v
      | .error _ => .error (.valueError "Invalid expression.") := by
  unfold scientific_calculator
  rw [h]
  rfl

/-- Success case: `scientific_calculator` returns `_eval`'s value when both stages
succeed. -/
theorem scientific_calculator_ok (intp : HostIntp) (s : String) (a : PyAst)
    (v : PyVal) (hp : pyParse s = .ok a) (he : pyEval intp a = .ok v) :
    scientific_calculator intp s = .ok v := by
  rw [scientific_calculator_parse_ok intp s a hp, he]

/-- Any exception of `_eval` is collapsed into
`ValueError("Invalid expression.")`. -/
theorem scientific_calculator_eval_err (intp : HostIntp) (s : String) (a : PyAst)
    (e : PyExc) (hp : pyParse s = .ok a) (he : pyEval intp a = .error e) :
    scientific_calculator intp s = .error (.valueError "Invalid expression.") := by
  rw [scientific_calculator_parse_ok intp s a hp, he]

/-- Any exception of `ast.parse` is collapsed into
`ValueError("Invalid expression.")`. -/
theorem scientific_calculator_parse_err (intp : HostIntp) (s : String) (e : PyExc)
    (h : pyParse s = .error e) :
    scientific_calculator intp s = .error (.valueError "Invalid expression.") := by
  unfold scientific_calculator
  rw [h]
  rfl

/-- C2: the claim reads the spec's `^` as the evaluator's power operator, but
in the Python source the input goes through `ast.parse`, where `^` is the XOR
operator `ast.BitXor` — which is not a key of `_ALLOWED_OPERATORS` — so
`"2^3^2"` parses as `(2 ^ 3) ^ 2` with `BitXor` nodes and `_eval` raises
`ValueError("Unsupported operator.")`, which `scientific_calculator` converts
to `ValueError("Invalid expression.")`: evaluation fails instead of returning
`512.0`. -/
theorem claim_C2_counterexample :
    pyParse "2^3^2" =
      .ok (.binOp (.binOp (.constant (.intV 2)) .bitXor (.constant (.intV 3)))
        .bitXor (.constant (.intV 2))) ∧
    scientific_calculator hostRef "2^3^2" =
      .error (.valueError "Invalid expression.") ∧
    scientific_calculator hostRef "2^3^2" ≠ .ok (.floatV (.finite 512)) := by
  refine ⟨rfl, rfl, ?_⟩
  decide

/-- C2 (amended): the power operator of the evaluator is Python's `**`, and
it is right-associative: `"2**3**2"` parses as `2 ** (3 ** 2)` and evaluates
to `512` — a Python `int`, both operands being `int` literals — and not to
`64`; the surface character `^` is Python's XOR and is rejected as an
unsupported operator. -/
theorem claim_C2_power_right_assoc :
    pyParse "2**3**2" =
      .ok (.binOp (.constant (.intV 2)) .pow
        (.binOp (.constant (.intV 3)) .pow (.constant (.intV 2)))) ∧
    (∀ intp : HostIntp, scientific_calculator intp "2**3**2" = .ok (.intV 512)) ∧
    (∀ intp : HostIntp, scientific_calculator intp "2**3**2" ≠ .ok (.intV 64)) := by
  refine ⟨rfl, fun intp => rfl, fun intp h => ?_⟩
  rw [show scientific_calculator intp "2**3**2" = .ok (.intV 512) from rfl] at h
  cases h

/-- C4: contrary to the claim (and to the `-> float` annotations of
`scientific_calculator` and `_eval`), a string literal is NOT rejected:
`ast.parse` produces an `ast.Constant` carrying the `str`, `_eval`'s
`Constant` branch returns `node.value` without checking its type, and
`scientific_calculator("\x27abc\x27")` returns the string `"abc"` with no
error, for every host interpretation. -/
theorem claim_C4_string_literal_accepted (intp : HostIntp) :
    scientific_calculator intp "\x27abc\x27" = .ok (.strV "abc") ∧
    pyParse "\x27abc\x27" = .ok (.constant (.strV "abc")) := ⟨rfl, rfl⟩

/-- C7: the claim that the system is float-only fails on the code: `_eval`
returns the literal values `ast.parse` produced, and CPython's arithmetic on
`int` operands stays `int`-typed, so `"2**3"` evaluates to the Python int
`8` — not the double `8.0` — and `"10 % 3"` to the int `1`. -/
theorem claim_C7_counterexample :
    scientific_calculator hostRef "2**3" = .ok (.intV 8) ∧
    scientific_calculator hostRef "2**3" ≠ .ok (.floatV (.finite 8)) ∧
    scientific_calculator hostRef "10 % 3" = .ok (.intV 1) ∧
    scientific_calculator hostRef "10 % 3" ≠ .ok (.floatV (.finite 1)) := by
  refine ⟨rfl, by decide, rfl, by decide⟩

/-- C7 (amended): evaluation follows CPython's numeric tower, not a
float-only model: an expression whose leaves are `int` literals keeps `int`
results under `+ - * % **` (so `"2**3"` → the int `8`, `"10 % 3"` → the int
`1`, whose numeric values match the claimed doubles), while true division
and any float operand produce floats (`"10 / 4"` → the float `2.5`). -/
theorem claim_C7_int_arithmetic :
    (∀ intp : HostIntp, scientific_calculator intp "2**3" = .ok (.intV 8)) ∧
    (∀ intp : HostIntp, scientific_calculator intp "10 % 3" = .ok (.intV 1)) ∧
    scientific_calculator hostRef "10 / 4" = .ok (.floatV (.finite (5 / 2))) := by
  refine ⟨fun _ => rfl, fun _ => rfl, ?_⟩
  have hp : pyParse "10 / 4" =
      .ok (.binOp (.constant (.intV 10)) .div (.constant (.intV 4))) := rfl
  have he : pyEval hostRef (.binOp (.constant (.intV 10)) .div (.constant (.intV 4))) =
      .ok (.floatV (.finite (((10 : ℤ) : ℚ) / ((4 : ℤ) : ℚ)))) := rfl
  rw [scientific_calculator_ok hostRef _ _ _ hp he]
  have hq : ((10 : ℤ) : ℚ) / ((4 : ℤ) : ℚ) = 5 / 2 := by norm_num
  rw [hq]

/-- Defining equation of `pyEval` on a `BinOp` node. -/
theorem pyEval_binOp (intp : HostIntp) (l : PyAst) (op : BOp) (r : PyAst) :
    pyEval intp (.binOp l op r) =
      if allowedOp op then do
        let lv ← pyEval intp l
        let rv ← pyEval intp r
        applyBinOp intp op lv rv
      else .error (.valueError "Unsupported operator.") := rfl

/-- Defining equation of `pyEval` on a `Call` node with a plain-name
callee. -/
theorem pyEval_call_name (intp : HostIntp) (id : String) (args : PyArgs) :
    pyEval intp (.call (.name id) args) =
      match allowLookup id with
      | some v => do
          let vs ← pyEvalArgs intp args
          callValue intp v vs
      | none => .error (.valueError "Function not allowed.") := rfl

/-- Defining equation of `pyEval` on a `Name` node. -/
theorem pyEval_name (intp : HostIntp) (id : String) :
    pyEval intp (.name id) =
      match allowLookup id with
      | some v => .ok v
      | none => .error (.valueError "Invalid expression.") := rfl

/-- C3: the claim's IEEE-754 reading fails on the code: `operator.truediv` is
CPython division, which raises `ZeroDivisionError` on a zero divisor instead
of producing `±inf`, and `scientific_calculator` converts that into
`ValueError("Invalid expression.")` — so `"1/0"` fails rather than returning
`+inf`. -/
theorem claim_C3_counterexample :
    scientific_calculator hostRef "1/0" =
      .error (.valueError "Invalid expression.") ∧
    scientific_calculator hostRef "1/0" ≠ .ok (.floatV .pinf) ∧
    (∀ q : ℚ, scientific_calculator hostRef "1/0" ≠ .ok (.floatV (.finite q))) := by
  refine ⟨rfl, by decide, fun q h => ?_⟩
  rw [show scientific_calculator hostRef "1/0" =
    .error (.valueError "Invalid expression.") from rfl] at h
  cases h

/-- C3 (amended): a division whose divisor evaluates to zero does fail, but
by raising: whenever the right operand of `Div` evaluates to a zero-valued
number (`0`, `0.0` or `False`) and the left operand to any number, `_eval`
raises `ZeroDivisionError` (CPython semantics, not IEEE-754), which
`scientific_calculator` then collapses into
`ValueError("Invalid expression.")`. -/
theorem claim_C3_div_by_zero_raises (intp : HostIntp) (l r : PyAst)
    (lv rv : PyVal) (hl : pyEval intp l = .ok lv) (hr : pyEval intp r = .ok rv)
    (hlv : (lv.asFloat?).isSome = true) (hz : rv.asFloat? = some (.finite 0)) :
    pyEval intp (.binOp l .div r) = .error .zeroDivisionError := by
  rw [pyEval_binOp]
  rw [show allowedOp .div = true from rfl]
  simp only [if_true]
  rw [hl]
  show Except.bind (pyEval intp r) _ = _
  rw [hr]
  show pyDiv lv rv = _
  obtain ⟨a, ha⟩ := Option.isSome_iff_exists.mp hlv
  unfold pyDiv
  rw [ha, hz]
  show (PyFloat.div a (.finite 0)).map PyVal.floatV = _
  cases a <;> simp [PyFloat.div, Except.map]

/-- C6: contrary to the claim, `_ALLOWED_NAMES` is a single table holding
the `math` module's functions as well as its float constants, and `_eval`'s
`Name` branch returns whatever value the table stores: the bare identifier
`"sin"` does not fail — it evaluates to the function object `math.sin`
itself, and `scientific_calculator("sin")` returns that (non-numeric) object
with no error. -/
theorem claim_C6_counterexample :
    scientific_calculator hostRef "sin" = .ok (.funcObj "sin") ∧
    scientific_calculator hostRef "sin" ≠
      .error (.valueError "Invalid expression.") := ⟨rfl, by decide⟩

/-- C6 (amended): `Identifier` nodes are resolved only against the fixed
`_ALLOWED_NAMES` table, and a name absent from it fails with
`ValueError("Invalid expression.")` (never as a variable or attribute); but
the table holds function members alongside the float constants, so a bare
function name such as `"sin"` succeeds and evaluates to the function object
(a non-numeric value) instead of failing. -/
theorem claim_C6_identifier_lookup :
    (∀ (intp : HostIntp) (id : String), allowLookup id = none →
      pyEval intp (.name id) = .error (.valueError "Invalid expression.")) ∧
    (∀ (intp : HostIntp) (id : String) (v : PyVal), allowLookup id = some v →
      pyEval intp (.name id) = .ok v) ∧
    (∀ intp : HostIntp, pyEval intp (.name "sin") = .ok (.funcObj "sin")) ∧
    allowLookup "nosuchname" = none := by
  refine ⟨fun intp id h => ?_, fun intp id v h => ?_, fun intp => rfl, rfl⟩
  · rw [pyEval_name, h]
  · rw [pyEval_name, h]

/-- C10: every failure of `scientific_calculator`, whatever its internal
cause — `SyntaxError` from `ast.parse`, unsupported operator, disallowed
call target, unknown name, `TypeError`, `ZeroDivisionError` — is caught by
its blanket `except Exception` and re-raised as the single undifferentiated
`ValueError("Invalid expression.")`: a caller can never distinguish the
causes by type or message. -/
theorem claim_C10_single_error (intp : HostIntp) (s : String) :
    (∃ v, scientific_calculator intp s = .ok v) ∨
    scientific_calculator intp s =
      .error (.valueError "Invalid expression.") := by
  unfold scientific_calculator
  cases (do
      let node ← pyParse s
      pyEval intp node : Except PyExc PyVal) with
  | ok v => exact Or.inl ⟨v, rfl⟩
  | error e => exact Or.inr rfl

/-- C8: a parse failure of `ast.parse` — as on `"2 +"`, an empty input,
unbalanced parentheses, a malformed number, or a stray character — aborts
evaluation with no partial result: `scientific_calculator` raises
`ValueError("Invalid expression.")` and the MCP tool `calculate` converts it
into `McpError` with code `INVALID_PARAMS` and that message, never a
number. -/
theorem claim_C8_malformed_input (intp : HostIntp) (s : String) (e : PyExc)
    (h : pyParse s = .error e) :
    calculate intp s = .mcpError INVALID_PARAMS "Invalid expression." ∧
    pyParse "2 +" = .error .parseErr ∧
    pyParse "" = .error .parseErr ∧
    pyParse "(1" = .error .parseErr ∧
    pyParse "1.2.3" = .error .parseErr ∧
    pyParse "2 $ 3" = .error .parseErr := by
  refine ⟨?_, rfl, rfl, rfl, rfl, rfl⟩
  unfold calculate
  rw [scientific_calculator_parse_err intp s e h]

/-- C8, instantiated at the claim's input `"2 +"` (whose parse failure is
discharged concretely). -/
theorem claim_C8_witness :
    calculate hostRef "2 +" = .mcpError INVALID_PARAMS "Invalid expression." ∧
    pyParse "2 +" = .error .parseErr ∧
    pyParse "" = .error .parseErr ∧
    pyParse "(1" = .error .parseErr ∧
    pyParse "1.2.3" = .error .parseErr ∧
    pyParse "2 $ 3" = .error .parseErr :=
  claim_C8_malformed_input hostRef "2 +" .parseErr rfl

/-- C3, instantiated at the claim's division `1 / 0` (the AST
`ast.parse("1/0")` produces), with the hypotheses discharged concretely. -/
theorem claim_C3_witness :
    pyEval hostRef (.binOp (.constant (.intV 1)) .div (.constant (.intV 0))) =
      .error .zeroDivisionError :=
  claim_C3_div_by_zero_raises hostRef (.constant (.intV 1))
    (.constant (.intV 0)) (.intV 1) (.intV 0) rfl rfl rfl (by decide)

/-- A lookup in the function part of `_ALLOWED_NAMES` only ever yields the
function object registered under the looked-up name itself. -/
theorem lookup_map_funcObj (L : List String) (id : String) (v : PyVal)
    (h : List.lookup id (L.map fun k => (k, PyVal.funcObj k)) = some v) :
    v = .funcObj id := by
  induction L with
  | nil => simp at h
  | cons a l ih =>
      rw [List.map_cons, List.lookup_cons] at h
      cases hb : (id == a) with
      | true =>
          rw [hb] at h
          simp only [] at h
          cases h
          rw [eq_of_beq hb]
      | false =>
          rw [hb] at h
          exact ih h

/-- A lookup among the non-callable members of `_ALLOWED_NAMES` (`e`, `inf`,
`nan`, `pi`, `tau`) only ever yields a float value. -/
theorem lookup_const_tail (id : String) (v : PyVal)
    (h : List.lookup id
      [("e", PyVal.floatV (.finite eQ)), ("inf", PyVal.floatV .pinf),
       ("nan", PyVal.floatV .nan), ("pi", PyVal.floatV (.finite piQ)),
       ("tau", PyVal.floatV (.finite tauQ))] = some v) :
    ∃ f, v = .floatV f := by
  rw [List.lookup_cons] at h
  split at h
  · cases h
    exact ⟨_, rfl⟩
  · rw [List.lookup_cons] at h
    split at h
    · cases h
      exact ⟨_, rfl⟩
    · rw [List.lookup_cons] at h
      split at h
      · cases h
        exact ⟨_, rfl⟩
      · rw [List.lookup_cons] at h
        split at h
        · cases h
          exact ⟨_, rfl⟩
        · rw [List.lookup_cons] at h
          split at h
          · cases h
            exact ⟨_, rfl⟩
          · simp at h

/-- A key of `_ALLOWED_NAMES` whose stored value is a function object stores
the function registered under that very key: `_ALLOWED_NAMES[id]` can be
`math.<n>` only when `n = id`. -/
theorem allowLookup_funcObj (id n : String)
    (h : allowLookup id = some (.funcObj n)) : n = id := by
  unfold allowLookup ALLOWED_NAMES at h
  rw [List.lookup_append] at h
  cases hm : List.lookup id (mathFunctionNames.map fun k => (k, PyVal.funcObj k)) with
  | some w =>
      rw [hm] at h
      have hw := lookup_map_funcObj mathFunctionNames id w hm
      have h2 : some w = some (PyVal.funcObj n) := h
      injection h2 with h3
      rw [hw] at h3
      injection h3 with h4
      exact h4.symm
  | none =>
      rw [hm] at h
      have h2 : List.lookup id
          [("e", PyVal.floatV (.finite eQ)), ("inf", PyVal.floatV .pinf),
           ("nan", PyVal.floatV .nan), ("pi", PyVal.floatV (.finite piQ)),
           ("tau", PyVal.floatV (.finite tauQ))] = some (.funcObj n) := h
      obtain ⟨f, hf⟩ := lookup_const_tail id _ h2
      exact PyVal.noConfusion hf

/-- The operator dispatch consults the host interpretation only through the
allowed power operator: two interpretations with the same `powInexact` give
every allowed (and every rejected) operator the same meaning. -/
theorem applyBinOp_congr (i j : HostIntp) (hpow : i.powInexact = j.powInexact)
    (op : BOp) (v w : PyVal) : applyBinOp i op v w = applyBinOp j op v w := by
  cases op <;> try rfl
  show pyPow i v w = pyPow j v w
  unfold pyPow
  rw [hpow]

mutual
/-- Evaluation consults the host only through the allow-listed function
names (and the allowed power operator): two host interpretations that agree
there produce identical results on every AST.  This is the formal sense in
which no host routine outside the allow-list tables is ever invoked. -/
def pyEvalAgree (i j : HostIntp)
    (hap : ∀ n, (allowLookup n).isSome = true → i.apply n = j.apply n)
    (hpow : i.powInexact = j.powInexact) :
    (a : PyAst) → pyEval i a = pyEval j a
  | .constant _ => rfl
  | .name _ => rfl
  | .other _ => rfl
  | .unaryOp op e => by
      have ih := pyEvalAgree i j hap hpow e
      cases op with
      | uadd => exact ih
      | usub =>
          show Except.bind (pyEval i e) pyNeg = Except.bind (pyEval j e) pyNeg
          rw [ih]
      | notOp => rfl
      | invert => rfl
  | .binOp l op r => by
      have ihl := pyEvalAgree i j hap hpow l
      have ihr := pyEvalAgree i j hap hpow r
      have hop := funext fun v => funext fun w => applyBinOp_congr i j hpow op v w
      rw [pyEval_binOp, pyEval_binOp, ihl, ihr, hop]
  | .call f args => by
      have iha := pyEvalArgsAgree i j hap hpow args
      cases f with
      | name id =>
          rw [pyEval_call_name, pyEval_call_name]
          cases hl : allowLookup id with
          | none => rfl
          | some v =>
              have hcv : ∀ vs, callValue i v vs = callValue j v vs := by
                intro vs
                cases v with
                | funcObj n =>
                    have hn : n = id := allowLookup_funcObj id n hl
                    have hs : (allowLookup n).isSome = true := by
                      rw [hn, hl]
                      rfl
                    show i.apply n vs = j.apply n vs
                    rw [hap n hs]
                | intV k => rfl
                | floatV ff => rfl
                | strV ss => rfl
                | boolV bb => rfl
                | noneV => rfl
              simp only [iha, hcv]
      | constant v => rfl
      | unaryOp op e => rfl
      | binOp l op r => rfl
      | call g as => rfl
      | other k => rfl

/-- Argument-list evaluation under two host interpretations that agree on
the allow-list. -/
def pyEvalArgsAgree (i j : HostIntp)
    (hap : ∀ n, (allowLookup n).isSome = true → i.apply n = j.apply n)
    (hpow : i.powInexact = j.powInexact) :
    (as : PyArgs) → pyEvalArgs i as = pyEvalArgs j as
  | .nil => rfl
  | .cons a rest => by
      have ih1 := pyEvalAgree i j hap hpow a
      have ih2 := pyEvalArgsAgree i j hap hpow rest
      show (do
          let v ← pyEval i a
          let vs ← pyEvalArgs i rest
          Except.ok (v :: vs)) = (do
          let v ← pyEval j a
          let vs ← pyEvalArgs j rest
          Except.ok (v :: vs))
      rw [ih1, ih2]
end

/-- C1: call targets resolve only against `_ALLOWED_NAMES`: a `Call` whose
callee is not a plain `ast.Name` with an allow-listed id fails with
`ValueError("Function not allowed.")` (the spec's `EvalError::UnknownFunction`)
before any argument is evaluated; evaluation depends on the host only through
the allow-listed names and the allowed power operator, so no host routine
outside the tables is ever invoked; and `"__import__(\x27os\x27)"` — whose
callee `__import__` is not in the table — fails for every host
interpretation, with `scientific_calculator` reporting the collapsed
`ValueError("Invalid expression.")`. -/
theorem claim_C1_allowlist_only :
    (∀ (intp : HostIntp) (f : PyAst) (args : PyArgs),
      callTargetAllowed f = false →
      pyEval intp (.call f args) = .error (.valueError "Function not allowed.")) ∧
    (∀ i j : HostIntp,
      (∀ n, (allowLookup n).isSome = true → i.apply n = j.apply n) →
      i.powInexact = j.powInexact →
      ∀ a : PyAst, pyEval i a = pyEval j a) ∧
    allowLookup "__import__" = none ∧
    (∀ intp : HostIntp,
      scientific_calculator intp "__import__(\x27os\x27)" =
        .error (.valueError "Invalid expression.")) := by
  refine ⟨fun intp f args hf => ?_, fun i j hap hpow a => pyEvalAgree i j hap hpow a,
    rfl, fun intp => rfl⟩
  cases f with
  | name id =>
      rw [pyEval_call_name]
      cases hl : allowLookup id with
      | none => rfl
      | some v =>
          rw [show callTargetAllowed (.name id) = (allowLookup id).isSome from rfl,
            hl] at hf
          cases hf
  | constant v => rfl
  | unaryOp op e => rfl
  | binOp l op r => rfl
  | call g as => rfl
  | other k => rfl

/-- C5: the wrong-arity call `"sqrt(4, 5)"` does fail — but there is no
`ArityMismatch(name, expected, got)` error anywhere in the code.  `_eval`
performs no arity check of its own: it evaluates the arguments and calls
`math.sqrt(4, 5)`, whose `TypeError` is then collapsed by
`scientific_calculator` into the same `ValueError("Invalid expression.")`
that every other failure produces — indistinguishable, e.g., from a plain
parse error. -/
theorem claim_C5_counterexample :
    scientific_calculator hostRef "sqrt(4, 5)" =
      .error (.valueError "Invalid expression.") ∧
    scientific_calculator hostRef "sqrt(4, 5)" =
      scientific_calculator hostRef "(" := ⟨rfl, rfl⟩

/-- C5 (amended): a call of an allow-listed function with the wrong number
of arguments fails, but not with a structured arity error: the host routine
raises `TypeError` (here stated as a hypothesis: `math.sqrt` accepts exactly
one argument), `_eval` propagates it, and `scientific_calculator` collapses
it into the undifferentiated `ValueError("Invalid expression.")`. -/
theorem claim_C5_arity_error_collapsed (intp : HostIntp)
    (hsqrt : intp.apply "sqrt" [.intV 4, .intV 5] = .error .typeError) :
    pyEval intp (.call (.name "sqrt")
      (.cons (.constant (.intV 4)) (.cons (.constant (.intV 5)) .nil))) =
      .error .typeError ∧
    scientific_calculator intp "sqrt(4, 5)" =
      .error (.valueError "Invalid expression.") := by
  have hp : pyParse "sqrt(4, 5)" = .ok (.call (.name "sqrt")
      (.cons (.constant (.intV 4)) (.cons (.constant (.intV 5)) .nil))) := rfl
  have he : pyEval intp (.call (.name "sqrt")
      (.cons (.constant (.intV 4)) (.cons (.constant (.intV 5)) .nil))) =
      .error .typeError := by
    have h1 : pyEval intp (.call (.name "sqrt")
        (.cons (.constant (.intV 4)) (.cons (.constant (.intV 5)) .nil))) =
        intp.apply "sqrt" [.intV 4, .intV 5] := rfl
    rw [h1, hsqrt]
  exact ⟨he, scientific_calculator_eval_err intp _ _ _ hp he⟩

/-- C5, instantiated at a host interpretation that rejects two-argument
calls the way `math.sqrt` does. -/
theorem claim_C5_witness :
    pyEval hostRef (.call (.name "sqrt")
      (.cons (.constant (.intV 4)) (.cons (.constant (.intV 5)) .nil))) =
      .error .typeError ∧
    scientific_calculator hostRef "sqrt(4, 5)" =
      .error (.valueError "Invalid expression.") :=
  claim_C5_arity_error_collapsed hostRef rfl

/-- C9: `"sin(pi/2) + 2**3"` evaluates to `9.0` within `1e-9`.  The only step
outside the repository is the host's `math.sin` at the binary64 argument
`math.pi / 2 = piQ / 2` (that division is exact); its result is stated as a
hypothesis — any faithfully rounded libm returns exactly `1.0` there, and
the bound `1e-10` allows even a sloppy one.  Everything else — the parse,
the `pi` lookup, the true division, `2**3 = 8` and the final float
promotion in the addition — is computed by the embedded code, giving a
float within `1e-9` of `9`. -/
theorem claim_C9_sin_eval (intp : HostIntp) (s : ℚ)
    (hsin : intp.apply "sin" [.floatV (.finite (piQ / 2))] =
      .ok (.floatV (.finite s)))
    (hacc : |s - 1| ≤ 1 / 10 ^ 10) :
    ∃ r : ℚ, scientific_calculator intp "sin(pi/2) + 2**3" =
      .ok (.floatV (.finite r)) ∧ |r - 9| ≤ 1 / 10 ^ 9 := by
  have hq2 : ((2 : ℤ) : ℚ) = 2 := by norm_num
  have hargs : pyEvalArgs intp
      (.cons (.binOp (.name "pi") .div (.constant (.intV 2))) .nil) =
      .ok [.floatV (.finite (piQ / ((2 : ℤ) : ℚ)))] := rfl
  rw [hq2] at hargs
  have hcall : pyEval intp (.call (.name "sin")
      (.cons (.binOp (.name "pi") .div (.constant (.intV 2))) .nil)) =
      .ok (.floatV (.finite s)) := by
    have h1 : pyEval intp (.call (.name "sin")
        (.cons (.binOp (.name "pi") .div (.constant (.intV 2))) .nil)) =
        Except.bind (pyEvalArgs intp
          (.cons (.binOp (.name "pi") .div (.constant (.intV 2))) .nil))
          (fun vs => intp.apply "sin" vs) := rfl
    rw [h1, hargs]
    exact hsin
  have htop : pyEval intp (.binOp
      (.call (.name "sin")
        (.cons (.binOp (.name "pi") .div (.constant (.intV 2))) .nil))
      .add (.binOp (.constant (.intV 2)) .pow (.constant (.intV 3)))) =
      .ok (.floatV (.finite (s + ((8 : ℤ) : ℚ)))) := by
    have h2 : pyEval intp (.binOp
        (.call (.name "sin")
          (.cons (.binOp (.name "pi") .div (.constant (.intV 2))) .nil))
        .add (.binOp (.constant (.intV 2)) .pow (.constant (.intV 3)))) =
        Except.bind (pyEval intp (.call (.name "sin")
          (.cons (.binOp (.name "pi") .div (.constant (.intV 2))) .nil)))
          (fun lv => Except.bind
            (pyEval intp (.binOp (.constant (.intV 2)) .pow (.constant (.intV 3))))
            (fun rv => pyAdd lv rv)) := rfl
    rw [h2, hcall]
    rfl
  have hp : pyParse "sin(pi/2) + 2**3" = .ok (.binOp
      (.call (.name "sin")
        (.cons (.binOp (.name "pi") .div (.constant (.intV 2))) .nil))
      .add (.binOp (.constant (.intV 2)) .pow (.constant (.intV 3)))) := rfl
  refine ⟨s + ((8 : ℤ) : ℚ), scientific_calculator_ok intp _ _ _ hp htop, ?_⟩
  have h8 : ((8 : ℤ) : ℚ) = 8 := by norm_num
  rw [h8]
  have h9 : s + 8 - 9 = s - 1 := by ring
  rw [h9]
  calc |s - 1| ≤ 1 / 10 ^ 10 := hacc
    _ ≤ 1 / 10 ^ 9 := by norm_num

/-- C9, instantiated at the sample host interpretation, whose `sin` returns
exactly `1.0` at `pi / 2` as CPython's does. -/
theorem claim_C9_witness :
    ∃ r : ℚ, scientific_calculator hostRef "sin(pi/2) + 2**3" =
      .ok (.floatV (.finite r)) ∧ |r - 9| ≤ 1 / 10 ^ 9 := by
  refine claim_C9_sin_eval hostRef 1 ?_ (by norm_num)
  show (if "sin" = "sin" ∧ piQ / 2 = piQ / 2
      then Except.ok (PyVal.floatV (.finite 1))
      else Except.ok (PyVal.floatV (.finite 0))) =
    .ok (.floatV (.finite 1))
  rw [if_pos ⟨rfl, rfl⟩]
